import Mathlib

/-!
Verification of the medication-reminder scheduling, follow-up reminder,
rating-aggregate and notification-retention logic of the HMS web application.

The Python source (scheduler.py, routes/doctor.py, routes/patient.py,
database.py, models.py) is shallowly embedded below:

* SQL tables become `List` fields of explicit database records; a row's
  generated primary key is an explicit `id` field.
* Calendar dates (`'YYYY-MM-DD'` strings compared lexicographically by SQLite,
  which on ISO dates is chronological order) and the `datetime('now')`
  timestamps become `Nat`, ordered by `≤`.
* SQL `ORDER BY` is modelled by `List.insertionSort` with the corresponding
  (total, transitive) key relation.
* Python string operations used by the scheduler (`str.lower`, the `in`
  substring test, `str.split()`, `str.isdigit`, `int(...)`) are embedded as
  executable functions on `String.data`.
* The mail collaborator is an oracle `sendOk : Nat → Bool` telling, per
  patient, whether `mail.send` succeeds; a raised exception is caught by the
  per-recipient `try/except` in the source, which we embed by recording the
  attempted email together with its delivery outcome.
* `json.loads(medicines_json)` either yields the medicine list or raises; a
  prescription therefore carries `medicines_json : Option (List Medicine)`,
  `none` embedding a string the parser rejects.
-/

namespace HMS

/-! ## Python string primitives -/

/-- Python `str.lower()` (ASCII case folding, which is all the scheduler
compares against). -/
def pyLower (s : String) : String := ⟨s.data.map Char.toLower⟩

/-- Does `pat` occur at the head of `s`? (helper for the substring test). -/
def charsStart : List Char → List Char → Bool
  | [], _ => true
  | _ :: _, [] => false
  | p :: ps, c :: cs => p == c && charsStart ps cs

/-- Does `pat` occur somewhere in `s`? (helper for the substring test). -/
def charsContain (pat : List Char) : List Char → Bool
  | [] => pat.isEmpty
  | c :: cs => charsStart pat (c :: cs) || charsContain pat cs

/-- Python's `pat in s` substring test. -/
def pyInStr (pat s : String) : Bool := charsContain pat.data s.data

/-- The first whitespace-separated token of `s`: Python `s.split()[0]`,
`none` embedding the `IndexError` raised when `s.split()` is empty. -/
def firstToken (s : String) : Option (List Char) :=
  let rest := s.data.dropWhile Char.isWhitespace
  if rest.isEmpty then none else some (rest.takeWhile (fun c => !c.isWhitespace))

/-- Python `tok.isdigit()` for the ASCII digit strings at issue here. -/
def pyIsDigitTok (tok : List Char) : Bool := !tok.isEmpty && tok.all Char.isDigit

/-- `int(tok)` on an all-digit token. -/
def digitsToNat (tok : List Char) : Nat :=
  tok.foldl (fun acc c => acc * 10 + (c.toNat - 48)) 0

/-! ## Data model -/

/-- One entry of a prescription's medicine list (the dictionaries stored in
`medicines_json` by `routes/doctor.py`).  `timing` and `food` default to `""`
when the key is absent, matching `med.get('timing', '')` / `med.get('food', '')`
in `scheduler.py`. -/
structure Medicine where
  name : String
  dosage : String
  duration : String
  timing : String
  food : String
  deriving DecidableEq, Repr

/-- A row of the `users` table (the columns the scheduler reads). -/
structure User where
  id : Nat
  full_name : String
  email : String
  deriving DecidableEq, Repr

/-- A row of the `prescriptions` table (the columns the scheduler reads).
`medicines_json = none` embeds a stored string that `json.loads` rejects. -/
structure Prescription where
  id : Nat
  patient_id : Nat
  medicines_json : Option (List Medicine)
  created_at : Nat
  deriving DecidableEq, Repr

/-- A row of the `medication_reminders` table. -/
structure MedicationReminder where
  id : Nat
  prescription_id : Nat
  patient_id : Nat
  start_date : Nat
  end_date : Nat
  last_sent_date : Option Nat
  is_active : Bool
  deriving DecidableEq, Repr

/-- A row of the `appointments` table (the columns the follow-up job and the
rating route read).  `status` is the literal status string. -/
structure Appointment where
  id : Nat
  patient_id : Nat
  doctor_id : Nat
  time : String
  consultation_mode : Option String
  meet_link : Option String
  status : String
  follow_up_required : Bool
  follow_up_date : Option Nat
  deriving DecidableEq, Repr

/-- A row of the `doctor_details` table (the columns read here). -/
structure DoctorDetails where
  user_id : Nat
  specialization : Option String
  clinic_address : Option String
  average_rating : ℚ
  total_ratings : Nat
  deriving DecidableEq, Repr

/-- A row of the `doctor_ratings` table.  `appointment_id` is the value the
`rate_doctor` route inserts; that route always supplies the concrete id from
the URL, so rows written by it carry a non-null reference. -/
structure DoctorRating where
  id : Nat
  doctor_id : Nat
  patient_id : Nat
  appointment_id : Nat
  rating : Nat
  review_text : Option String
  deriving DecidableEq, Repr

/-- A row of the `notifications` table (the columns the retention logic
reads).  `created_at` is a timestamp in seconds. -/
structure Notification where
  id : Nat
  user_id : Nat
  message : String
  is_read : Bool
  created_at : Nat
  deriving DecidableEq, Repr

/-! ## Prescription write path (`routes/doctor.py`, `write_prescription`) -/

/-- `int(duration_str.split()[0]) if duration_str.split()[0].isdigit() else 0`
for one medicine; `none` embeds the `IndexError` on a whitespace-only
duration string (which the form path cannot produce, since it stores
`duration.strip() + ' days'` with a non-empty stripped part). -/
def medDuration? (m : Medicine) : Option Nat :=
  match firstToken m.duration with
  | none => none
  | some tok => some (if pyIsDigitTok tok then digitsToNat tok else 0)

/-- The parsed duration of one medicine (0 for an unparsable one). -/
def medDurationDays (m : Medicine) : Nat := (medDuration? m).getD 0

/-- The `max_duration` loop of `write_prescription`; `none` embeds an
`IndexError` escaping to the surrounding `try/except`. -/
def maxDuration? (meds : List Medicine) : Option Nat :=
  meds.foldl
    (fun acc m =>
      match acc, medDuration? m with
      | some a, some d => some (max a d)
      | _, _ => none)
    (some 0)

/-- `create_medication_reminder` in `scheduler.py`: the inserted row, with
`start_date = today` and `end_date = today + max_duration_days`. -/
def create_medication_reminder (prescription_id patient_id today max_duration_days
    reminder_id : Nat) : MedicationReminder :=
  { id := reminder_id
    prescription_id := prescription_id
    patient_id := patient_id
    start_date := today
    end_date := today + max_duration_days
    last_sent_date := none
    is_active := true }

/-- The reminder-creation block of `write_prescription` (`if medicines:` …
`if max_duration > 0: create_medication_reminder(...)`), returning the window
row it inserts, if any. -/
def write_prescription_reminder (prescription_id patient_id today reminder_id : Nat)
    (medicines : List Medicine) : Option MedicationReminder :=
  if medicines.isEmpty then none
  else
    match maxDuration? medicines with
    | none => none
    | some max_duration =>
        if 0 < max_duration then
          some (create_medication_reminder prescription_id patient_id today
            max_duration reminder_id)
        else none

/-- `write_prescription`: stores the full medicine list on the prescription
row, then runs the reminder-creation block. -/
def write_prescription (prescription_id patient_id today reminder_id created_at : Nat)
    (medicines : List Medicine) : Prescription × Option MedicationReminder :=
  ({ id := prescription_id
     patient_id := patient_id
     medicines_json := some medicines
     created_at := created_at },
   write_prescription_reminder prescription_id patient_id today reminder_id medicines)

/-! ## Daily medication dispatch (`scheduler.py`, `send_daily_medication_reminders`) -/

/-- The scheduler's view of the database. -/
structure SchedulerDB where
  users : List User
  prescriptions : List Prescription
  medication_reminders : List MedicationReminder
  deriving DecidableEq, Repr

def lookupUser (us : List User) (i : Nat) : Option User :=
  us.find? (fun u => u.id == i)

def lookupPrescription (ps : List Prescription) (i : Nat) : Option Prescription :=
  ps.find? (fun p => p.id == i)

/-- The `WHERE` clause of the daily query: `is_active = 1 AND start_date <= ?
AND end_date >= ? AND (last_sent_date IS NULL OR last_sent_date < ?)`. -/
def reminderDue (today : Nat) (r : MedicationReminder) : Bool :=
  r.is_active && decide (r.start_date ≤ today) && decide (today ≤ r.end_date) &&
    (match r.last_sent_date with
     | none => true
     | some d => decide (d < today))

/-- One row of the daily query's result set. -/
structure ReminderRow where
  reminder_id : Nat
  patient_id : Nat
  prescription_id : Nat
  last_sent_date : Option Nat
  full_name : String
  email : String
  medicines_json : Option (List Medicine)
  created_at : Nat
  deriving DecidableEq, Repr

/-- The two inner `JOIN`s of the daily query: a reminder joins to a row iff
its patient and prescription exist. -/
def joinReminder (db : SchedulerDB) (r : MedicationReminder) : Option ReminderRow :=
  match lookupUser db.users r.patient_id, lookupPrescription db.prescriptions r.prescription_id with
  | some u, some p =>
      some { reminder_id := r.id
             patient_id := r.patient_id
             prescription_id := r.prescription_id
             last_sent_date := r.last_sent_date
             full_name := u.full_name
             email := u.email
             medicines_json := p.medicines_json
             created_at := p.created_at }
  | _, _ => none

/-- The `ORDER BY mr.patient_id, p.created_at` key relation. -/
def RowLE (a b : ReminderRow) : Prop :=
  a.patient_id < b.patient_id ∨ (a.patient_id = b.patient_id ∧ a.created_at ≤ b.created_at)

instance : DecidableRel RowLE := fun a b => by unfold RowLE; infer_instance

instance : IsTotal ReminderRow RowLE :=
  ⟨fun a b => by unfold RowLE; omega⟩

instance : IsTrans ReminderRow RowLE :=
  ⟨fun a b c => by unfold RowLE; omega⟩

/-- The daily query: filter, join, order. -/
def dueReminderRows (db : SchedulerDB) (today : Nat) : List ReminderRow :=
  ((db.medication_reminders.filter (reminderDue today)).filterMap (joinReminder db)).insertionSort
    RowLE

/-- The medicines one row contributes: `json.loads` plus the
`except: pass` branch (`if medicines:` then `extend`; extending by the empty
list is the same as skipping). -/
def rowMedicines (row : ReminderRow) : List Medicine :=
  match row.medicines_json with
  | some ms => ms
  | none => []

/-- One entry of the `patients_data` dict. -/
structure PatientData where
  name : String
  email : String
  medicines : List Medicine
  deriving DecidableEq, Repr

/-- `patients_data[patient_id]['medicines'].extend(medicines)`: extend the
entry (entries, if ill-formed duplicates existed) holding key `pid`. -/
def extendPatient (acc : List (Nat × PatientData)) (pid : Nat) (ms : List Medicine) :
    List (Nat × PatientData) :=
  acc.map fun e =>
    if e.1 == pid then (e.1, { e.2 with medicines := e.2.medicines ++ ms }) else e

/-- One iteration of the grouping loop: create the patient's entry on first
sight (with the row's name and email), then extend its medicine list. -/
def addRow (acc : List (Nat × PatientData)) (row : ReminderRow) : List (Nat × PatientData) :=
  let acc' :=
    if acc.any (fun e => e.1 == row.patient_id) then acc
    else acc ++ [(row.patient_id, { name := row.full_name, email := row.email, medicines := [] })]
  extendPatient acc' row.patient_id (rowMedicines row)

/-- The grouping loop over the result set (`patients_data`, an
insertion-ordered dict). -/
def groupRows (rows : List ReminderRow) : List (Nat × PatientData) :=
  rows.foldl addRow []

/-- One attempted reminder email; `delivered` is the mail oracle's verdict
(`false` embeds `mail.send` raising, caught by the per-patient `try`). -/
structure SentEmail where
  patient_id : Nat
  email : String
  medicines : List Medicine
  delivered : Bool
  deriving DecidableEq, Repr

/-- `send_daily_medication_reminders`: query, group, send one email per
patient with a non-empty merged list, then one bulk `UPDATE` setting
`last_sent_date = today` on every collected reminder id. -/
def send_daily_medication_reminders (db : SchedulerDB) (today : Nat) (sendOk : Nat → Bool) :
    List SentEmail × SchedulerDB :=
  let rows := dueReminderRows db today
  if rows.isEmpty then ([], db)
  else
    let grouped := groupRows rows
    let reminder_ids := rows.map (·.reminder_id)
    let emails := grouped.filterMap fun e =>
      if e.2.medicines.isEmpty then none
      else some { patient_id := e.1, email := e.2.email, medicines := e.2.medicines,
                  delivered := sendOk e.1 }
    let reminders' :=
      if reminder_ids.isEmpty then db.medication_reminders
      else
        db.medication_reminders.map fun r =>
          if reminder_ids.contains r.id then { r with last_sent_date := some today } else r
    (emails, { db with medication_reminders := reminders' })

/-! ## Email bucketing (`scheduler.py`, `send_medication_email`) -/

/-- The `med_info` dict built for each medicine. -/
structure MedInfo where
  name : String
  dosage : String
  food : String
  deriving DecidableEq, Repr

def medInfoOf (m : Medicine) : MedInfo :=
  { name := m.name, dosage := m.dosage, food := m.food }

/-- `'morning' in timing` after `timing = med.get('timing', '').lower()`. -/
def inMorning (m : Medicine) : Bool := pyInStr "morning" (pyLower m.timing)

def inAfternoon (m : Medicine) : Bool := pyInStr "afternoon" (pyLower m.timing)

def inEvening (m : Medicine) : Bool := pyInStr "evening" (pyLower m.timing)

def inNight (m : Medicine) : Bool := pyInStr "night" (pyLower m.timing)

/-- `if not timing or timing == '-':` — the Anytime fallback. -/
def inAnytime (m : Medicine) : Bool := pyLower m.timing == "" || pyLower m.timing == "-"

/-- The five timing buckets of the reminder email. -/
structure TimingBuckets where
  morning : List MedInfo
  afternoon : List MedInfo
  evening : List MedInfo
  night : List MedInfo
  anytime : List MedInfo
  deriving DecidableEq, Repr

/-- One iteration of the bucketing loop: the four independent substring
tests, then the Anytime fallback. -/
def bucketStep (b : TimingBuckets) (m : Medicine) : TimingBuckets :=
  let info := medInfoOf m
  let b := if inMorning m then { b with morning := b.morning ++ [info] } else b
  let b := if inAfternoon m then { b with afternoon := b.afternoon ++ [info] } else b
  let b := if inEvening m then { b with evening := b.evening ++ [info] } else b
  let b := if inNight m then { b with night := b.night ++ [info] } else b
  if inAnytime m then { b with anytime := b.anytime ++ [info] } else b

/-- The bucketed content of the reminder email built by
`send_medication_email` (only bucketed medicines appear in the HTML). -/
def send_medication_email (all_medicines : List Medicine) : TimingBuckets :=
  all_medicines.foldl bucketStep ⟨[], [], [], [], []⟩

/-! ## Follow-up reminders (`scheduler.py`, `send_followup_appointment_reminders`) -/

/-- The follow-up job's view of the database. -/
structure FollowupDB where
  users : List User
  appointments : List Appointment
  doctor_details : List DoctorDetails
  deriving DecidableEq, Repr

def lookupDoctorDetails (ds : List DoctorDetails) (i : Nat) : Option DoctorDetails :=
  ds.find? (fun d => d.user_id == i)

/-- The `WHERE` clause of the follow-up query: `follow_up_date = ? AND
follow_up_required = 1 AND status = 'COMPLETED'` (exact single-day match). -/
def followupDue (today : Nat) (a : Appointment) : Bool :=
  a.follow_up_date == some today && a.follow_up_required && a.status == "COMPLETED"

/-- One row of the follow-up query / one attempted reminder email. -/
structure FollowupRow where
  appointment_id : Nat
  appointment_time : String
  consultation_mode : Option String
  meet_link : Option String
  patient_id : Nat
  patient_name : String
  patient_email : String
  doctor_name : String
  specialization : Option String
  clinic_address : Option String
  deriving DecidableEq, Repr

/-- The two inner `JOIN`s on `users` and the `LEFT JOIN` on
`doctor_details` of the follow-up query. -/
def joinFollowup (db : FollowupDB) (a : Appointment) : Option FollowupRow :=
  match lookupUser db.users a.patient_id, lookupUser db.users a.doctor_id with
  | some u, some d =>
      let dd := lookupDoctorDetails db.doctor_details a.doctor_id
      some { appointment_id := a.id
             appointment_time := a.time
             consultation_mode := a.consultation_mode
             meet_link := a.meet_link
             patient_id := a.patient_id
             patient_name := u.full_name
             patient_email := u.email
             doctor_name := d.full_name
             specialization := dd.bind (·.specialization)
             clinic_address := dd.bind (·.clinic_address) }
  | _, _ => none

/-- `send_followup_appointment_reminders`: one email attempt per matching
appointment, no merging and no write-back — the database is returned
unchanged, embedding the absence of any `UPDATE` in the job. -/
def send_followup_appointment_reminders (db : FollowupDB) (today : Nat) :
    List FollowupRow × FollowupDB :=
  ((db.appointments.filter (followupDue today)).filterMap (joinFollowup db), db)

/-! ## Ratings (`routes/patient.py` `rate_doctor`, `database.py` `create_rating`) -/

/-- The rating path's view of the database. -/
structure RatingDB where
  appointments : List Appointment
  doctor_ratings : List DoctorRating
  doctor_details : List DoctorDetails
  deriving DecidableEq, Repr

/-- `check_existing_rating`: `SELECT * FROM doctor_ratings WHERE patient_id =
? AND appointment_id = ?`, first hit. -/
def check_existing_rating (db : RatingDB) (patient_id appointment_id : Nat) :
    Option DoctorRating :=
  db.doctor_ratings.find? (fun r => r.patient_id == patient_id && r.appointment_id == appointment_id)

/-- `update_doctor_average_rating`: full recompute of `AVG(rating)` (SQL
`NULL` over zero rows, embedded as `none`) and `COUNT(*)`, written to the
doctor's `doctor_details` row.  The Python falsy checks
`result['avg_rating'] if result['avg_rating'] else 0.0` are kept verbatim. -/
def update_doctor_average_rating (db : RatingDB) (doctor_id : Nat) : RatingDB :=
  let rs := db.doctor_ratings.filter (fun r => r.doctor_id == doctor_id)
  let avg_opt : Option ℚ :=
    if rs.isEmpty then none else some ((rs.map (fun r => (r.rating : ℚ))).sum / rs.length)
  let avg_rating : ℚ :=
    match avg_opt with
    | none => 0
    | some a => if a = 0 then 0 else a
  let total_ratings : Nat := rs.length
  { db with
      doctor_details := db.doctor_details.map fun d =>
        if d.user_id == doctor_id then
          { d with average_rating := avg_rating, total_ratings := total_ratings }
        else d }

/-- `create_rating`: insert the row, then recompute the doctor's aggregate. -/
def create_rating (db : RatingDB) (doctor_id patient_id appointment_id rating : Nat)
    (review_text : Option String) (rating_id : Nat) : RatingDB :=
  let db' :=
    { db with
        doctor_ratings := db.doctor_ratings ++
          [{ id := rating_id, doctor_id := doctor_id, patient_id := patient_id,
             appointment_id := appointment_id, rating := rating, review_text := review_text }] }
  update_doctor_average_rating db' doctor_id

/-- The outcome flashed by the `rate_doctor` route. -/
inductive RateOutcome where
  | success
  | alreadyRated
  | apptNotFound
  | badStatus
  | invalidValue
  deriving DecidableEq, Repr

/-- The POST branch of the `rate_doctor` route: value check, duplicate check
(`check_existing_rating`), appointment lookup, status check, then
`create_rating`. -/
def rate_doctor (db : RatingDB) (patient_id appointment_id : Nat) (rating : Int)
    (review_text : Option String) (rating_id : Nat) : RateOutcome × RatingDB :=
  if rating < 1 || rating > 5 then (.invalidValue, db)
  else
    match check_existing_rating db patient_id appointment_id with
    | some _ => (.alreadyRated, db)
    | none =>
        match db.appointments.find? (fun a => a.id == appointment_id && a.patient_id == patient_id) with
        | none => (.apptNotFound, db)
        | some appt =>
            if appt.status != "COMPLETED" && appt.status != "REJECTED" then (.badStatus, db)
            else (.success,
              create_rating db appt.doctor_id patient_id appointment_id rating.toNat
                review_text rating_id)

/-! ## Notification retention (`database.py`, `get_user_notifications`) -/

/-- Seconds in seven days — the `datetime('now', '-7 days')` cutoff. -/
def sevenDays : Nat := 7 * 86400

/-- The rows removed by the purge: `user_id = ? AND is_read = 1 AND
datetime(created_at) < datetime('now', '-7 days')`. -/
def notifPurged (user_id now : Nat) (n : Notification) : Bool :=
  n.user_id == user_id && n.is_read && decide (n.created_at + sevenDays < now)

/-- The `ORDER BY created_at DESC` key relation. -/
def NotifGE (a b : Notification) : Prop := b.created_at ≤ a.created_at

instance : DecidableRel NotifGE := fun a b => by unfold NotifGE; infer_instance

instance : IsTotal Notification NotifGE :=
  ⟨fun a b => by unfold NotifGE; omega⟩

instance : IsTrans Notification NotifGE :=
  ⟨fun a b c => by unfold NotifGE; omega⟩

/-- `get_user_notifications`: the purge `DELETE`, then the `SELECT … ORDER BY
created_at DESC LIMIT 50` (restricted to unread rows when `unread_only`).
Returns the result set together with the table left behind by the purge. -/
def get_user_notifications (notifs : List Notification) (user_id : Nat)
    (unread_only : Bool) (now : Nat) : List Notification × List Notification :=
  let remaining := notifs.filter (fun n => !notifPurged user_id now n)
  let mine :=
    if unread_only then remaining.filter (fun n => n.user_id == user_id && !n.is_read)
    else remaining.filter (fun n => n.user_id == user_id)
  ((mine.insertionSort NotifGE).take 50, remaining)

/-! ## Derived notions used in the statements -/

/-- Closed form for the bucketing loop: each bucket collects exactly the
medicines passing its test, in list order. -/
def bucketsOf (meds : List Medicine) : TimingBuckets :=
  { morning := (meds.filter inMorning).map medInfoOf
    afternoon := (meds.filter inAfternoon).map medInfoOf
    evening := (meds.filter inEvening).map medInfoOf
    night := (meds.filter inNight).map medInfoOf
    anytime := (meds.filter inAnytime).map medInfoOf }

/-- Closed form of the `max_duration` loop on the success path. -/
def listMaxDuration (meds : List Medicine) : Nat :=
  meds.foldl (fun a m => max a (medDurationDays m)) 0

/-- The merged medicine list the grouping dict holds for a patient
(`[]` when the patient has no entry). -/
def groupedMedicines (g : List (Nat × PatientData)) (pid : Nat) : List Medicine :=
  match g.find? (fun e => e.1 == pid) with
  | some e => e.2.medicines
  | none => []

/-- A patient's qualifying rows' medicines, concatenated in row order. -/
def patientRowMedicines (rows : List ReminderRow) (pid : Nat) : List Medicine :=
  (rows.filter (fun row => row.patient_id == pid)).flatMap rowMedicines

/-- Modelled from the spec: `AVG(rating)` over a doctor's rating rows,
reported as `0.0` when there are none (`MissingAggregate`). -/
def specAverage (rs : List DoctorRating) : ℚ :=
  if rs.isEmpty then 0 else (rs.map (fun r => (r.rating : ℚ))).sum / rs.length

/-- A doctor's rating rows. -/
def ratingsOfDoctor (db : RatingDB) (doctor_id : Nat) : List DoctorRating :=
  db.doctor_ratings.filter (fun r => r.doctor_id == doctor_id)

/-- The rating rows for one (patient, appointment) pair. -/
def ratingsForPair (db : RatingDB) (patient_id appointment_id : Nat) : List DoctorRating :=
  db.doctor_ratings.filter
    (fun r => r.patient_id == patient_id && r.appointment_id == appointment_id)

/-- Some rating for the pair already exists. -/
def hasRatingFor (db : RatingDB) (patient_id appointment_id : Nat) : Prop :=
  ∃ r ∈ db.doctor_ratings, r.patient_id = patient_id ∧ r.appointment_id = appointment_id

/-! ## Concrete sample data for witnesses and counterexamples -/

def medX : Medicine :=
  { name := "Paracetamol", dosage := "500mg", duration := "10 days",
    timing := "Morning", food := "After food" }

def medY : Medicine :=
  { name := "Melatonin", dosage := "3mg", duration := "5 days",
    timing := "Night", food := "" }

def medA : Medicine :=
  { name := "Vitamin C", dosage := "1g", duration := "ten days",
    timing := "-", food := "" }

def medB : Medicine :=
  { name := "Morning-Night Pill", dosage := "1", duration := "7 days",
    timing := "Morning, Night", food := "" }

def medZ : Medicine :=
  { name := "Ibuprofen", dosage := "200mg", duration := "3 days",
    timing := "twice daily", food := "" }

def patOne : User := { id := 1, full_name := "Pat", email := "pat@example.com" }

def patTwo : User := { id := 2, full_name := "Sam", email := "sam@example.com" }

def rxOne : Prescription :=
  { id := 11, patient_id := 1, medicines_json := some [medX], created_at := 5 }

def rxTwo : Prescription :=
  { id := 12, patient_id := 1, medicines_json := some [medY], created_at := 6 }

def rxEmpty : Prescription :=
  { id := 13, patient_id := 2, medicines_json := some [], created_at := 7 }

def remOne : MedicationReminder :=
  { id := 21, prescription_id := 11, patient_id := 1, start_date := 8, end_date := 18,
    last_sent_date := none, is_active := true }

def remTwo : MedicationReminder :=
  { id := 22, prescription_id := 12, patient_id := 1, start_date := 9, end_date := 14,
    last_sent_date := none, is_active := true }

def remEmpty : MedicationReminder :=
  { id := 23, prescription_id := 13, patient_id := 2, start_date := 9, end_date := 16,
    last_sent_date := none, is_active := true }

/-- One due reminder whose patient's send will fail. -/
def cexDB : SchedulerDB :=
  { users := [patOne], prescriptions := [rxOne], medication_reminders := [remOne] }

/-- Two prescriptions for patient 1 and an empty-medicine one for patient 2. -/
def c3db : SchedulerDB :=
  { users := [patOne, patTwo]
    prescriptions := [rxOne, rxTwo, rxEmpty]
    medication_reminders := [remOne, remTwo, remEmpty] }

def apptDone (i pid did fudate : Nat) : Appointment :=
  { id := i, patient_id := pid, doctor_id := did, time := "10:00",
    consultation_mode := some "PHYSICAL", meet_link := none, status := "COMPLETED",
    follow_up_required := true, follow_up_date := some fudate }

def drDetails : DoctorDetails :=
  { user_id := 9, specialization := some "Cardiology", clinic_address := some "1 Main St",
    average_rating := 0, total_ratings := 0 }

/-- Two follow-ups for patient 1 today, one for patient 2 today, one tomorrow. -/
def c6db : FollowupDB :=
  { users := [patOne, patTwo, { id := 9, full_name := "Dr. Who", email := "who@example.com" }]
    appointments := [apptDone 41 1 9 10, apptDone 42 1 9 10, apptDone 43 2 9 10, apptDone 44 1 9 11]
    doctor_details := [drDetails] }

def c7appt : Appointment :=
  { id := 31, patient_id := 1, doctor_id := 9, time := "10:00",
    consultation_mode := some "PHYSICAL", meet_link := none, status := "COMPLETED",
    follow_up_required := false, follow_up_date := none }

def c7rating : DoctorRating :=
  { id := 101, doctor_id := 9, patient_id := 1, appointment_id := 31, rating := 5,
    review_text := none }

/-- Patient 1 already rated appointment 31. -/
def c7db : RatingDB :=
  { appointments := [c7appt], doctor_ratings := [c7rating], doctor_details := [drDetails] }

def c8appt (i : Nat) : Appointment :=
  { id := i, patient_id := 1, doctor_id := 9, time := "10:00",
    consultation_mode := some "PHYSICAL", meet_link := none, status := "COMPLETED",
    follow_up_required := false, follow_up_date := none }

def c8db0 : RatingDB :=
  { appointments := [c8appt 51, c8appt 52, c8appt 53], doctor_ratings := [],
    doctor_details := [drDetails] }

/-- The `{5, 3, 4}` rating scenario, inserted through the route. -/
def c8db1 : RatingDB := (rate_doctor c8db0 1 51 5 none 201).2

def c8db2 : RatingDB := (rate_doctor c8db1 1 52 3 none 202).2

def c8db3 : RatingDB := (rate_doctor c8db2 1 53 4 none 203).2

def c8r1 : DoctorRating :=
  { id := 201, doctor_id := 9, patient_id := 1, appointment_id := 51, rating := 5,
    review_text := none }

def c8r2 : DoctorRating :=
  { id := 202, doctor_id := 9, patient_id := 1, appointment_id := 52, rating := 3,
    review_text := none }

def c8r3 : DoctorRating :=
  { id := 203, doctor_id := 9, patient_id := 1, appointment_id := 53, rating := 4,
    review_text := none }

def mkNotif (i u c : Nat) (r : Bool) : Notification :=
  { id := i, user_id := u, message := "", is_read := r, created_at := c }

/-- `now` for the retention scenarios: day 10 in seconds. -/
def nowTs : Nat := 10 * 86400

/-- A read notification 6 days old … -/
def sixDayOldRead : Notification := mkNotif 0 7 (nowTs - 6 * 86400) true

/-- … buried under 50 newer unread notifications for the same user. -/
def c9notifs : List Notification :=
  sixDayOldRead :: (List.range 50).map (fun i => mkNotif (i + 1) 7 (nowTs - 86400 + i) false)

/-- A small retention scenario: one read 8-day-old, one read 6-day-old, one
unread 9-day-old, all for user 7, plus a read 9-day-old of user 8. -/
def c9small : List Notification :=
  [mkNotif 1 7 (nowTs - 8 * 86400) true, mkNotif 2 7 (nowTs - 6 * 86400) true,
   mkNotif 3 7 (nowTs - 9 * 86400) false, mkNotif 4 8 (nowTs - 9 * 86400) true]

/-! ## Lemmas about the bucketing loop -/

theorem bucket_foldl (meds : List Medicine) : ∀ b : TimingBuckets,
    meds.foldl bucketStep b =
      { morning := b.morning ++ (meds.filter inMorning).map medInfoOf
        afternoon := b.afternoon ++ (meds.filter inAfternoon).map medInfoOf
        evening := b.evening ++ (meds.filter inEvening).map medInfoOf
        night := b.night ++ (meds.filter inNight).map medInfoOf
        anytime := b.anytime ++ (meds.filter inAnytime).map medInfoOf } := by
  induction meds with
  | nil => intro b; simp
  | cons m ms ih =>
    intro b
    rw [List.foldl_cons, ih]
    simp only [bucketStep, List.filter_cons]
    by_cases h1 : inMorning m <;> by_cases h2 : inAfternoon m <;>
      by_cases h3 : inEvening m <;> by_cases h4 : inNight m <;>
      by_cases h5 : inAnytime m <;>
      simp [h1, h2, h3, h4, h5]

theorem send_medication_email_eq (meds : List Medicine) :
    send_medication_email meds = bucketsOf meds := by
  rw [send_medication_email, bucket_foldl]
  simp [bucketsOf]

/-- A character whose lowercase form is `'-'` is `'-'` itself. -/
theorem charToLower_eq_dash {c : Char} (h : c.toLower = '-') : c = '-' := by
  unfold Char.toLower at h
  simp only [] at h
  by_cases hc : c.toNat ≥ 65 ∧ c.toNat ≤ 90
  · rw [if_pos hc] at h
    have h2 := congrArg Char.toNat h
    have h3 : (Char.ofNat (c.toNat + 32)).toNat = c.toNat + 32 := by
      have hv : (c.toNat + 32).isValidChar := Or.inl (by omega)
      unfold Char.ofNat
      rw [dif_pos hv]
      simp [Char.ofNatAux, Char.toNat, UInt32.toNat, BitVec.toNat_ofNatLt]
    rw [h3] at h2
    have h4 : ('-').toNat = 45 := by decide
    omega
  · rwa [if_neg hc] at h

theorem pyLower_eq_empty {s : String} (h : pyLower s = "") : s = "" := by
  cases s with
  | mk data =>
    have hd := congrArg String.data h
    simp only [pyLower] at hd
    have : data.map Char.toLower = [] := hd
    rcases List.map_eq_nil_iff.mp this with rfl
    rfl

theorem pyLower_eq_dash {s : String} (h : pyLower s = "-") : s = "-" := by
  cases s with
  | mk data =>
    have hd := congrArg String.data h
    simp only [pyLower] at hd
    have hmap : data.map Char.toLower = ['-'] := hd
    have hlen : data.length = 1 := by
      have := congrArg List.length hmap
      simpa using this
    obtain ⟨c, rfl⟩ := List.length_eq_one.mp hlen
    simp only [List.map_cons, List.map_nil, List.cons.injEq, and_true] at hmap
    rw [charToLower_eq_dash hmap]

/-- C5: in the dispatch email bucketing, a medicine of the merged list whose
timing tag is empty or the placeholder `"-"` lands in the Anytime bucket, and
a medicine whose (case-insensitively lowered) timing string contains a period
name lands in that period's bucket — in every matching bucket simultaneously
when several names occur. -/
theorem claim5_bucketing (meds : List Medicine) (m : Medicine) (hm : m ∈ meds) :
    ((m.timing = "" ∨ m.timing = "-") → medInfoOf m ∈ (send_medication_email meds).anytime) ∧
    (pyInStr "morning" (pyLower m.timing) = true →
      medInfoOf m ∈ (send_medication_email meds).morning) ∧
    (pyInStr "afternoon" (pyLower m.timing) = true →
      medInfoOf m ∈ (send_medication_email meds).afternoon) ∧
    (pyInStr "evening" (pyLower m.timing) = true →
      medInfoOf m ∈ (send_medication_email meds).evening) ∧
    (pyInStr "night" (pyLower m.timing) = true →
      medInfoOf m ∈ (send_medication_email meds).night) := by
  rw [send_medication_email_eq]
  refine ⟨?_, ?_, ?_, ?_, ?_⟩ <;> intro h
  · have ht : inAnytime m = true := by
      unfold inAnytime
      rcases h with h | h <;> rw [h] <;> decide
    exact List.mem_map_of_mem _ (List.mem_filter_of_mem hm ht)
  · exact List.mem_map_of_mem _ (List.mem_filter_of_mem hm h)
  · exact List.mem_map_of_mem _ (List.mem_filter_of_mem hm h)
  · exact List.mem_map_of_mem _ (List.mem_filter_of_mem hm h)
  · exact List.mem_map_of_mem _ (List.mem_filter_of_mem hm h)

/-- Witness for C5: the `Morning`/`Night`/`-` scenario evaluated
concretely, including a two-period medicine in both buckets. -/
theorem claim5_bucketing_witness :
    medInfoOf medX ∈ (send_medication_email [medX, medY, medA]).morning ∧
    medInfoOf medY ∈ (send_medication_email [medX, medY, medA]).night ∧
    medInfoOf medA ∈ (send_medication_email [medX, medY, medA]).anytime ∧
    medInfoOf medB ∈ (send_medication_email [medB]).morning ∧
    medInfoOf medB ∈ (send_medication_email [medB]).night := by
  refine ⟨?_, ?_, ?_, ?_, ?_⟩
  · exact (claim5_bucketing [medX, medY, medA] medX (by decide)).2.1 (by decide)
  · exact (claim5_bucketing [medX, medY, medA] medY (by decide)).2.2.2.2 (by decide)
  · exact (claim5_bucketing [medX, medY, medA] medA (by decide)).1 (Or.inr (by decide))
  · exact (claim5_bucketing [medB] medB (by decide)).2.1 (by decide)
  · exact (claim5_bucketing [medB] medB (by decide)).2.2.2.2 (by decide)

/-- C10: a medicine whose timing tag is non-empty, is not the placeholder
`"-"`, and whose lowercased timing contains none of the four period names as
a substring lands in no bucket at all — the email built with it equals the
email built without it. -/
theorem claim10_unmatched_timing (l1 l2 : List Medicine) (m : Medicine)
    (h0 : m.timing ≠ "") (h1 : m.timing ≠ "-")
    (h2 : pyInStr "morning" (pyLower m.timing) = false)
    (h3 : pyInStr "afternoon" (pyLower m.timing) = false)
    (h4 : pyInStr "evening" (pyLower m.timing) = false)
    (h5 : pyInStr "night" (pyLower m.timing) = false) :
    send_medication_email (l1 ++ m :: l2) = send_medication_email (l1 ++ l2) := by
  have ha : inAnytime m = false := by
    unfold inAnytime
    simp only [Bool.or_eq_false_iff, beq_eq_false_iff_ne, ne_eq]
    exact ⟨fun h => h0 (pyLower_eq_empty h), fun h => h1 (pyLower_eq_dash h)⟩
  rw [send_medication_email_eq, send_medication_email_eq]
  unfold bucketsOf
  simp [List.filter_append, List.filter_cons, inMorning, inAfternoon, inEvening, inNight,
    h2, h3, h4, h5, ha]

/-- Witness for C10: a `"twice daily"` timing tag leaves the email content
unchanged. -/
theorem claim10_unmatched_timing_witness :
    medZ.timing ≠ "" ∧ medZ.timing ≠ "-" ∧
    send_medication_email [medX, medZ] = send_medication_email [medX] :=
  ⟨by decide, by decide,
    claim10_unmatched_timing [medX] [] medZ (by decide) (by decide) (by decide) (by decide)
      (by decide) (by decide)⟩

/-! ## Lemmas about the duration maximum -/

theorem maxDuration?_foldl (meds : List Medicine)
    (hshape : ∀ m ∈ meds, (medDuration? m).isSome) : ∀ a : Nat,
    meds.foldl
        (fun acc m =>
          match acc, medDuration? m with
          | some a, some d => some (max a d)
          | _, _ => none)
        (some a) =
      some (meds.foldl (fun a m => max a (medDurationDays m)) a) := by
  induction meds with
  | nil => intro a; rfl
  | cons m ms ih =>
    intro a
    have hs : (medDuration? m).isSome := hshape m (List.mem_cons_self m ms)
    obtain ⟨d, hd⟩ := Option.isSome_iff_exists.mp hs
    have ihs : ∀ m' ∈ ms, (medDuration? m').isSome := fun m' hm' =>
      hshape m' (List.mem_cons_of_mem _ hm')
    simp only [List.foldl_cons, hd]
    rw [ih ihs (max a d)]
    simp [medDurationDays, hd]

theorem maxDuration?_eq (meds : List Medicine)
    (hshape : ∀ m ∈ meds, (medDuration? m).isSome) :
    maxDuration? meds = some (listMaxDuration meds) :=
  maxDuration?_foldl meds hshape 0

theorem listMaxDuration_foldl_filter (meds : List Medicine) : ∀ a : Nat,
    meds.foldl (fun a m => max a (medDurationDays m)) a =
      (meds.filter (fun m => decide (0 < medDurationDays m))).foldl
        (fun a m => max a (medDurationDays m)) a := by
  induction meds with
  | nil => intro a; rfl
  | cons m ms ih =>
    intro a
    by_cases hd : 0 < medDurationDays m
    · rw [List.foldl_cons, List.filter_cons, if_pos (by simpa using hd), List.foldl_cons]
      exact ih _
    · have hz : medDurationDays m = 0 := by omega
      rw [List.foldl_cons, List.filter_cons, if_neg (by simpa using hd), hz]
      simp only [Nat.max_zero]
      exact ih _

theorem listMaxDuration_filter (meds : List Medicine) :
    listMaxDuration meds =
      listMaxDuration (meds.filter (fun m => decide (0 < medDurationDays m))) :=
  listMaxDuration_foldl_filter meds 0

theorem foldl_max_le_init (meds : List Medicine) : ∀ a : Nat,
    a ≤ meds.foldl (fun a m => max a (medDurationDays m)) a := by
  induction meds with
  | nil => intro a; exact Nat.le_refl a
  | cons m ms ih =>
    intro a
    calc a ≤ max a (medDurationDays m) := Nat.le_max_left _ _
      _ ≤ _ := ih _

theorem le_listMaxDuration {meds : List Medicine} {m : Medicine} (hm : m ∈ meds) :
    medDurationDays m ≤ listMaxDuration meds := by
  unfold listMaxDuration
  generalize (0 : Nat) = a
  induction meds generalizing a with
  | nil => cases hm
  | cons m' ms ih =>
    rcases List.mem_cons.mp hm with rfl | hm'
    · calc medDurationDays m ≤ max a (medDurationDays m) := Nat.le_max_right _ _
        _ ≤ _ := foldl_max_le_init ms _
    · exact ih hm' _

/-- C2: for a written prescription whose medicines all carry a tokenizable
duration string (the form path stores `"<base> days"` with a non-empty
base), a single window is created exactly when some medicine parses to a
positive duration, with `start_date = today` and `end_date = today + max` of
the parsed durations; non-positive or unparsable durations are excluded from
that maximum while the stored prescription keeps the full medicine list, and
with no positive duration no window is created. -/
theorem claim2_window_creation (prescription_id patient_id today reminder_id created_at : Nat)
    (meds : List Medicine)
    (hshape : ∀ m ∈ meds, (medDuration? m).isSome) :
    ((∃ m ∈ meds, 0 < medDurationDays m) →
      (write_prescription prescription_id patient_id today reminder_id created_at meds).2 =
        some { id := reminder_id, prescription_id := prescription_id, patient_id := patient_id,
               start_date := today, end_date := today + listMaxDuration meds,
               last_sent_date := none, is_active := true }) ∧
    listMaxDuration meds =
      listMaxDuration (meds.filter (fun m => decide (0 < medDurationDays m))) ∧
    (write_prescription prescription_id patient_id today reminder_id created_at meds).1.medicines_json
      = some meds ∧
    ((∀ m ∈ meds, medDurationDays m = 0) →
      (write_prescription prescription_id patient_id today reminder_id created_at meds).2 =
        none) := by
  refine ⟨?_, listMaxDuration_filter meds, rfl, ?_⟩
  · rintro ⟨m, hm, hpos⟩
    have hne : meds.isEmpty = false := by
      cases meds
      · cases hm
      · rfl
    have hmax : 0 < listMaxDuration meds := Nat.lt_of_lt_of_le hpos (le_listMaxDuration hm)
    unfold write_prescription write_prescription_reminder
    rw [maxDuration?_eq meds hshape]
    simp only [hne, Bool.false_eq_true, if_false, hmax, if_pos]
    rfl
  · intro hz
    unfold write_prescription write_prescription_reminder
    cases hempty : meds.isEmpty
    · have hfz : meds.filter (fun m => decide (0 < medDurationDays m)) = [] :=
        List.filter_eq_nil_iff.mpr (fun m hm => by simp [hz m hm])
      have h0 : listMaxDuration meds = 0 := by
        rw [listMaxDuration_filter meds, hfz]; rfl
      rw [maxDuration?_eq meds hshape]
      simp [hempty, h0]
    · simp [hempty]

/-- Witness for C2: durations `"10 days"`, `"5 days"` and the unparsable
`"ten days"` give a window ending `today + 10`; a prescription whose only
medicine has an unparsable duration gives none. -/
theorem claim2_window_creation_witness :
    (write_prescription 11 1 100 21 5 [medX, medY, medA]).2 =
      some { id := 21, prescription_id := 11, patient_id := 1, start_date := 100,
             end_date := 110, last_sent_date := none, is_active := true } ∧
    (write_prescription 13 2 100 23 7 [medA]).2 = none := by
  constructor
  · have h := (claim2_window_creation 11 1 100 21 5 [medX, medY, medA] (by decide)).1
      ⟨medX, by decide, by decide⟩
    rw [h]
    decide
  · exact (claim2_window_creation 13 2 100 23 7 [medA] (by decide)).2.2.2 (by decide)

/-! ## Lemmas about the follow-up job -/

theorem joinFollowup_some {db : FollowupDB} {a : Appointment} {row : FollowupRow}
    (h : joinFollowup db a = some row) :
    row.appointment_id = a.id ∧ row.patient_id = a.patient_id := by
  unfold joinFollowup at h
  split at h
  · cases h
    exact ⟨rfl, rfl⟩
  · cases h

theorem joinFollowup_isSome {db : FollowupDB} {a : Appointment}
    (h1 : (lookupUser db.users a.patient_id).isSome)
    (h2 : (lookupUser db.users a.doctor_id).isSome) :
    (joinFollowup db a).isSome := by
  obtain ⟨u, hu⟩ := Option.isSome_iff_exists.mp h1
  obtain ⟨d, hd⟩ := Option.isSome_iff_exists.mp h2
  unfold joinFollowup
  rw [hu, hd]
  rfl

theorem filterMap_joinFollowup_ids (db : FollowupDB) (l : List Appointment)
    (h : ∀ a ∈ l, (joinFollowup db a).isSome) :
    (l.filterMap (joinFollowup db)).map (·.appointment_id) = l.map (·.id) := by
  induction l with
  | nil => rfl
  | cons a t ih =>
    obtain ⟨row, hrow⟩ := Option.isSome_iff_exists.mp (h a (List.mem_cons_self a t))
    have ih' := ih (fun a' ha' => h a' (List.mem_cons_of_mem _ ha'))
    simp only [List.filterMap_cons, hrow, List.map_cons, ih', List.cons.injEq, and_true]
    exact (joinFollowup_some hrow).1

theorem filterMap_joinFollowup_count (db : FollowupDB) (l : List Appointment)
    (h : ∀ a ∈ l, (joinFollowup db a).isSome) (pid : Nat) :
    ((l.filterMap (joinFollowup db)).filter (fun e => e.patient_id == pid)).length =
      (l.filter (fun a => a.patient_id == pid)).length := by
  induction l with
  | nil => rfl
  | cons a t ih =>
    obtain ⟨row, hrow⟩ := Option.isSome_iff_exists.mp (h a (List.mem_cons_self a t))
    have ih' := ih (fun a' ha' => h a' (List.mem_cons_of_mem _ ha'))
    have hpe : (row.patient_id == pid) = (a.patient_id == pid) := by
      rw [(joinFollowup_some hrow).2]
    simp only [List.filterMap_cons, hrow, List.filter_cons, hpe]
    by_cases hp : (a.patient_id == pid) = true
    · simp only [hp, if_true, List.length_cons, ih']
    · simp only [Bool.not_eq_true] at hp
      simp only [hp, Bool.false_eq_true, if_false, ih']

/-- C6: the follow-up job selects exactly the appointments with
`status = 'COMPLETED'`, `follow_up_required` set, and `follow_up_date` equal
to today (single-day exact match), emits one reminder per matching
appointment — a patient with two matches gets two — and records no
suppression state, so an immediate second run emits the same reminders. -/
theorem claim6_followups (db : FollowupDB) (today : Nat)
    (hFK : ∀ a ∈ db.appointments,
      (lookupUser db.users a.patient_id).isSome ∧ (lookupUser db.users a.doctor_id).isSome) :
    ((send_followup_appointment_reminders db today).1.map (·.appointment_id) =
      (db.appointments.filter (fun a =>
        a.status == "COMPLETED" && a.follow_up_required &&
          a.follow_up_date == some today)).map (·.id)) ∧
    (∀ pid : Nat,
      ((send_followup_appointment_reminders db today).1.filter
          (fun e => e.patient_id == pid)).length =
        (db.appointments.filter (fun a =>
          (a.status == "COMPLETED" && a.follow_up_required &&
            a.follow_up_date == some today) && a.patient_id == pid)).length) ∧
    ((send_followup_appointment_reminders db today).2 = db) ∧
    (send_followup_appointment_reminders (send_followup_appointment_reminders db today).2 today =
      send_followup_appointment_reminders db today) := by
  have hpred : ∀ a : Appointment,
      (a.status == "COMPLETED" && a.follow_up_required && a.follow_up_date == some today) =
        followupDue today a := by
    intro a
    unfold followupDue
    cases hs : (a.status == "COMPLETED") <;> cases hr : a.follow_up_required <;>
      cases hd : (a.follow_up_date == some today) <;> rfl
  have hsel : ∀ a ∈ db.appointments.filter (followupDue today), (joinFollowup db a).isSome := by
    intro a ha
    have ha' := List.mem_of_mem_filter ha
    exact joinFollowup_isSome (hFK a ha').1 (hFK a ha').2
  refine ⟨?_, ?_, rfl, rfl⟩
  · rw [List.filter_congr (fun a _ => hpred a)]
    exact filterMap_joinFollowup_ids db _ hsel
  · intro pid
    unfold send_followup_appointment_reminders
    rw [filterMap_joinFollowup_count db _ hsel pid, List.filter_filter]
    exact congrArg List.length
      (List.filter_congr (fun a _ => by rw [Bool.and_comm, hpred a]))

/-- Witness for C6: on day 10, appointments 41, 42, 43 fire (44 is for day
11), and patient 1 — with two follow-ups today — gets two reminders. -/
theorem claim6_followups_witness :
    (send_followup_appointment_reminders c6db 10).1.map (·.appointment_id) = [41, 42, 43] ∧
    ((send_followup_appointment_reminders c6db 10).1.filter
        (fun e => e.patient_id == 1)).length = 2 := by
  have h := claim6_followups c6db 10 (by decide)
  exact ⟨h.1.trans (by decide), (h.2.1 1).trans (by decide)⟩

/-! ## Lemmas about the daily medication job -/

theorem joinReminder_some {db : SchedulerDB} {r : MedicationReminder} {row : ReminderRow}
    (h : joinReminder db r = some row) :
    row.reminder_id = r.id ∧ row.patient_id = r.patient_id := by
  unfold joinReminder at h
  split at h
  · cases h
    exact ⟨rfl, rfl⟩
  · cases h

theorem joinReminder_isSome {db : SchedulerDB} {r : MedicationReminder}
    (h1 : (lookupUser db.users r.patient_id).isSome)
    (h2 : (lookupPrescription db.prescriptions r.prescription_id).isSome) :
    (joinReminder db r).isSome := by
  obtain ⟨u, hu⟩ := Option.isSome_iff_exists.mp h1
  obtain ⟨p, hp⟩ := Option.isSome_iff_exists.mp h2
  unfold joinReminder
  rw [hu, hp]
  rfl

theorem joinReminder_congr {db db' : SchedulerDB} (h1 : db'.users = db.users)
    (h2 : db'.prescriptions = db.prescriptions) : joinReminder db' = joinReminder db := by
  funext r
  unfold joinReminder
  rw [h1, h2]

theorem mem_dueReminderRows {db : SchedulerDB} {today : Nat} {row : ReminderRow} :
    row ∈ dueReminderRows db today ↔
      ∃ r ∈ db.medication_reminders, reminderDue today r = true ∧ joinReminder db r = some row := by
  unfold dueReminderRows
  rw [List.mem_insertionSort, List.mem_filterMap]
  simp [List.mem_filter, and_assoc]

theorem id_mem_rowIds {db : SchedulerDB} {today : Nat} {r : MedicationReminder}
    (hr : r ∈ db.medication_reminders) (hdue : reminderDue today r = true)
    (hjs : (joinReminder db r).isSome) :
    ((dueReminderRows db today).map (·.reminder_id)).contains r.id = true := by
  obtain ⟨row, hrow⟩ := Option.isSome_iff_exists.mp hjs
  have hm : row ∈ dueReminderRows db today := mem_dueReminderRows.mpr ⟨r, hr, hdue, hrow⟩
  exact List.elem_iff.mpr (List.mem_map.mpr ⟨row, hm, (joinReminder_some hrow).1⟩)

theorem due_of_id_mem {db : SchedulerDB} {today : Nat} {r : MedicationReminder}
    (hnd : (db.medication_reminders.map (·.id)).Nodup)
    (hr : r ∈ db.medication_reminders)
    {row : ReminderRow} (hrow : row ∈ dueReminderRows db today)
    (hid : row.reminder_id = r.id) :
    reminderDue today r = true := by
  obtain ⟨r', hr', hdue', hjoin'⟩ := mem_dueReminderRows.mp hrow
  have hid' : r'.id = r.id := by rw [← (joinReminder_some hjoin').1, hid]
  have : r' = r := List.inj_on_of_nodup_map hnd hr' hr hid'
  rwa [← this]

/-- The daily query's `WHERE` clause, read as a proposition. -/
theorem reminderDue_iff {today : Nat} {r : MedicationReminder} :
    reminderDue today r = true ↔
      (r.is_active = true ∧ r.start_date ≤ today ∧ today ≤ r.end_date ∧
        (r.last_sent_date = none ∨ ∃ d, r.last_sent_date = some d ∧ d < today)) := by
  unfold reminderDue
  cases hl : r.last_sent_date with
  | none => simp [hl, Bool.and_assoc]
  | some d => simp [hl, Bool.and_assoc]

/-! ## Lemmas about the grouping dict -/

theorem find?_extendPatient (acc : List (Nat × PatientData)) (k pid : Nat) (ms : List Medicine) :
    (extendPatient acc k ms).find? (fun e => e.1 == pid) =
      (acc.find? (fun e => e.1 == pid)).map
        (fun e => if e.1 == k then (e.1, { e.2 with medicines := e.2.medicines ++ ms }) else e) := by
  unfold extendPatient
  rw [List.find?_map]
  have hcomp : ((fun (e : Nat × PatientData) => e.1 == pid) ∘ fun e =>
      if e.1 == k then (e.1, { e.2 with medicines := e.2.medicines ++ ms }) else e) =
      (fun (e : Nat × PatientData) => e.1 == pid) := by
    funext e
    by_cases h : (e.1 == k) = true <;> simp [Function.comp, h]
  rw [hcomp]

theorem keys_extendPatient (acc : List (Nat × PatientData)) (k : Nat) (ms : List Medicine) :
    (extendPatient acc k ms).map Prod.fst = acc.map Prod.fst := by
  unfold extendPatient
  rw [List.map_map]
  have hcomp : (Prod.fst ∘ fun (e : Nat × PatientData) =>
      if e.1 == k then (e.1, { e.2 with medicines := e.2.medicines ++ ms }) else e) =
      (Prod.fst : Nat × PatientData → Nat) := by
    funext e
    by_cases h : (e.1 == k) = true <;> simp [Function.comp, h]
  rw [hcomp]

theorem groupedMedicines_addRow (acc : List (Nat × PatientData)) (row : ReminderRow) (pid : Nat) :
    groupedMedicines (addRow acc row) pid =
      groupedMedicines acc pid ++ (if row.patient_id == pid then rowMedicines row else []) := by
  unfold addRow groupedMedicines
  by_cases hk : (acc.any (fun e => e.1 == row.patient_id)) = true
  · by_cases hp : row.patient_id = pid
    · subst hp
      rw [if_pos hk, find?_extendPatient]
      cases hf : acc.find? (fun e => e.1 == row.patient_id) with
      | none =>
          obtain ⟨e, he, hkey⟩ := List.any_eq_true.mp hk
          exact absurd hkey (List.find?_eq_none.mp hf e he)
      | some e =>
          have hkey : e.1 = row.patient_id := by
            have h := List.find?_some hf
            simpa using h
          simp [hkey]
    · rw [if_pos hk, find?_extendPatient]
      cases hf : acc.find? (fun e => e.1 == pid) with
      | none => simp [hp]
      | some e =>
          have hkey : e.1 = pid := by
            have h := List.find?_some hf
            simpa using h
          have hne : ¬e.1 = row.patient_id := by
            rw [hkey]
            exact fun h => hp h.symm
          simp [hne, hp]
  · by_cases hp : row.patient_id = pid
    · subst hp
      rw [if_neg hk, find?_extendPatient, List.find?_append]
      have hf : acc.find? (fun e => e.1 == row.patient_id) = none := by
        rw [List.find?_eq_none]
        intro x hx hpx
        exact hk (List.any_eq_true.mpr ⟨x, hx, hpx⟩)
      rw [hf]
      simp
    · rw [if_neg hk, find?_extendPatient, List.find?_append]
      cases hf : acc.find? (fun e => e.1 == pid) with
      | none => simp [hp]
      | some e =>
          have hkey : e.1 = pid := by
            have h := List.find?_some hf
            simpa using h
          have hne : ¬e.1 = row.patient_id := by
            rw [hkey]
            exact fun h => hp h.symm
          simp [hne, hp]

theorem groupedMedicines_foldl (rows : List ReminderRow) :
    ∀ (acc : List (Nat × PatientData)) (pid : Nat),
      groupedMedicines (rows.foldl addRow acc) pid =
        groupedMedicines acc pid ++ patientRowMedicines rows pid := by
  induction rows with
  | nil =>
      intro acc pid
      simp [patientRowMedicines]
  | cons row rs ih =>
      intro acc pid
      rw [List.foldl_cons, ih, groupedMedicines_addRow, List.append_assoc]
      congr 1
      unfold patientRowMedicines
      rw [List.filter_cons]
      by_cases h : (row.patient_id == pid) = true
      · simp [h]
      · simp only [Bool.not_eq_true] at h
        simp [h]

theorem groupRows_meds (rows : List ReminderRow) (pid : Nat) :
    groupedMedicines (groupRows rows) pid = patientRowMedicines rows pid := by
  have h := groupedMedicines_foldl rows [] pid
  unfold groupRows
  rw [h]
  rfl

theorem keys_addRow (acc : List (Nat × PatientData)) (row : ReminderRow) :
    (addRow acc row).map Prod.fst =
      if acc.any (fun e => e.1 == row.patient_id) then acc.map Prod.fst
      else acc.map Prod.fst ++ [row.patient_id] := by
  unfold addRow
  by_cases h : (acc.any (fun e => e.1 == row.patient_id)) = true
  · rw [if_pos h, if_pos h, keys_extendPatient]
  · rw [if_neg h, if_neg h, keys_extendPatient]
    simp

theorem groupRows_keys_nodup (rows : List ReminderRow) :
    ∀ acc : List (Nat × PatientData),
      (acc.map Prod.fst).Nodup → (((rows.foldl addRow acc)).map Prod.fst).Nodup := by
  induction rows with
  | nil => exact fun acc h => h
  | cons row rs ih =>
      intro acc h
      rw [List.foldl_cons]
      apply ih
      rw [keys_addRow]
      by_cases hk : (acc.any (fun e => e.1 == row.patient_id)) = true
      · rwa [if_pos hk]
      · rw [if_neg hk]
        have hnot : row.patient_id ∉ acc.map Prod.fst := by
          intro hmem
          obtain ⟨e, he, hkey⟩ := List.mem_map.mp hmem
          exact hk (List.any_eq_true.mpr ⟨e, he, by simp [hkey]⟩)
        rw [List.nodup_append]
        exact ⟨h, List.nodup_singleton _, by simpa [List.disjoint_singleton] using hnot⟩

theorem find?_key_of_mem {g : List (Nat × PatientData)} (hnd : (g.map Prod.fst).Nodup)
    {e : Nat × PatientData} (he : e ∈ g) : g.find? (fun x => x.1 == e.1) = some e := by
  induction g with
  | nil => cases he
  | cons h t ih =>
      rw [List.map_cons, List.nodup_cons] at hnd
      rcases List.mem_cons.mp he with rfl | ht
      · exact List.find?_cons_of_pos _ (by simp)
      · have hne : ¬(h.1 == e.1) = true := by
          simp only [beq_iff_eq]
          intro hEq
          exact hnd.1 (hEq ▸ List.mem_map.mpr ⟨e, ht, rfl⟩)
        rw [show List.find? (fun x => x.1 == e.1) (h :: t) = List.find? (fun x => x.1 == e.1) t
          from List.find?_cons_of_neg t hne]
        exact ih hnd.2 ht

/-! ## Run-level lemmas for the daily job -/

theorem run_reminders_eq (db : SchedulerDB) (today : Nat) (sendOk : Nat → Bool) :
    (send_daily_medication_reminders db today sendOk).2.medication_reminders =
      db.medication_reminders.map (fun r =>
        if ((dueReminderRows db today).map (·.reminder_id)).contains r.id then
          { r with last_sent_date := some today }
        else r) := by
  unfold send_daily_medication_reminders
  by_cases h : (dueReminderRows db today).isEmpty = true
  · rw [if_pos h]
    have hnil : dueReminderRows db today = [] := List.isEmpty_iff.mp h
    simp [hnil]
  · rw [if_neg h]
    have hne : ((dueReminderRows db today).map (·.reminder_id)).isEmpty = false := by
      cases hl : dueReminderRows db today with
      | nil => exact absurd (by rw [hl]; rfl) h
      | cons a t => rfl
    simp only [hne, Bool.false_eq_true, if_false]

theorem run_users_eq (db : SchedulerDB) (today : Nat) (sendOk : Nat → Bool) :
    (send_daily_medication_reminders db today sendOk).2.users = db.users ∧
      (send_daily_medication_reminders db today sendOk).2.prescriptions = db.prescriptions := by
  unfold send_daily_medication_reminders
  by_cases h : (dueReminderRows db today).isEmpty = true
  · rw [if_pos h]
    exact ⟨rfl, rfl⟩
  · rw [if_neg h]
    exact ⟨rfl, rfl⟩

theorem run_emails_nil {db : SchedulerDB} {today : Nat} (sendOk : Nat → Bool)
    (h : dueReminderRows db today = []) :
    (send_daily_medication_reminders db today sendOk).1 = [] := by
  unfold send_daily_medication_reminders
  rw [h]
  rfl

/-- C4: running the daily dispatch twice on the same day sends zero reminder
emails on the second run: after the first run every selected window carries
`last_sent_date = today`, the second run's selection is empty, and its email
list is empty — whatever each run's send outcomes were. -/
theorem claim4_idempotent (db : SchedulerDB) (today : Nat) (sendOk1 sendOk2 : Nat → Bool) :
    (∀ row ∈ dueReminderRows db today,
      ∀ r' ∈ (send_daily_medication_reminders db today sendOk1).2.medication_reminders,
        r'.id = row.reminder_id → r'.last_sent_date = some today) ∧
    dueReminderRows (send_daily_medication_reminders db today sendOk1).2 today = [] ∧
    (send_daily_medication_reminders (send_daily_medication_reminders db today sendOk1).2 today
        sendOk2).1 = [] := by
  have hrem := run_reminders_eq db today sendOk1
  have husers := run_users_eq db today sendOk1
  have hmark : ∀ row ∈ dueReminderRows db today,
      ∀ r' ∈ (send_daily_medication_reminders db today sendOk1).2.medication_reminders,
        r'.id = row.reminder_id → r'.last_sent_date = some today := by
    intro row hrow r' hr' hid
    rw [hrem] at hr'
    obtain ⟨r, hr, hfr⟩ := List.mem_map.mp hr'
    by_cases hc : ((dueReminderRows db today).map (·.reminder_id)).contains r.id = true
    · rw [← hfr, if_pos hc]
    · rw [if_neg hc] at hfr
      subst hfr
      exfalso
      apply hc
      apply List.elem_iff.mpr
      rw [hid]
      exact List.mem_map.mpr ⟨row, hrow, rfl⟩
  have hempty : dueReminderRows (send_daily_medication_reminders db today sendOk1).2 today = [] := by
    unfold dueReminderRows
    have hbase :
        (((send_daily_medication_reminders db today sendOk1).2.medication_reminders.filter
            (reminderDue today)).filterMap
          (joinReminder (send_daily_medication_reminders db today sendOk1).2)) = [] := by
      rw [List.filterMap_eq_nil_iff]
      intro r' hr'
      have hdue' : reminderDue today r' = true := (List.mem_filter.mp hr').2
      have hr'mem := (List.mem_filter.mp hr').1
      rw [hrem] at hr'mem
      obtain ⟨r, hr, hfr⟩ := List.mem_map.mp hr'mem
      by_cases hc : ((dueReminderRows db today).map (·.reminder_id)).contains r.id = true
      · exfalso
        rw [if_pos hc] at hfr
        rw [← hfr, reminderDue_iff] at hdue'
        rcases hdue'.2.2.2 with h1 | ⟨d, hd1, hd2⟩
        · simp at h1
        · have hdt : today = d := by simpa using hd1
          omega
      · rw [if_neg hc] at hfr
        subst hfr
        rw [joinReminder_congr husers.1 husers.2]
        cases hj : joinReminder db r with
        | none => rfl
        | some row =>
            exfalso
            exact hc (id_mem_rowIds hr hdue' (by rw [hj]; rfl))
    rw [hbase]
    rfl
  exact ⟨hmark, hempty, run_emails_nil sendOk2 hempty⟩

/-- C1 (amended): the advance of `last_sent_date` is one bulk update,
independent of the send outcomes — after a run, every window selected by the
day's query carries `last_sent_date = today`, including the windows of
patients whose email send failed or who were skipped for an empty medicine
list; the resulting database does not depend on the mail oracle at all. -/
theorem claim1_bulk_update (db : SchedulerDB) (today : Nat) (f g : Nat → Bool) :
    ((send_daily_medication_reminders db today f).2 =
      (send_daily_medication_reminders db today g).2) ∧
    ((send_daily_medication_reminders db today f).2.medication_reminders =
      db.medication_reminders.map (fun r =>
        if ((dueReminderRows db today).map (·.reminder_id)).contains r.id then
          { r with last_sent_date := some today }
        else r)) := by
  constructor
  · unfold send_daily_medication_reminders
    by_cases h : (dueReminderRows db today).isEmpty = true
    · rw [if_pos h, if_pos h]
    · rw [if_neg h, if_neg h]
  · exact run_reminders_eq db today f

/-- Counterexample for C1: with one due window and a mail oracle that fails
every send, the run still advances the failed patient's window to
`last_sent_date = today`, contradicting the claim that no window of a failed
patient advances. -/
theorem claim1_counterexample :
    (send_daily_medication_reminders cexDB 10 (fun _ => false)).1 =
      [{ patient_id := 1, email := "pat@example.com", medicines := [medX],
         delivered := false }] ∧
    (send_daily_medication_reminders cexDB 10 (fun _ => false)).2.medication_reminders =
      [{ remOne with last_sent_date := some 10 }] := by
  decide

/-- C3: under the schema's referential integrity and primary-key uniqueness,
the daily query selects exactly the windows with `is_active`, `start_date ≤
today ≤ end_date`, and `last_sent_date` null or `< today`; grouping merges a
patient's medicines by concatenating the qualifying rows in query order —
within a patient, in `created_at` order, duplicates kept — and a patient
whose qualifying windows contribute no medicines gets no email. -/
theorem claim3_aggregation (db : SchedulerDB) (today : Nat) (sendOk : Nat → Bool)
    (hnd : (db.medication_reminders.map (·.id)).Nodup)
    (hFK : ∀ r ∈ db.medication_reminders,
      (lookupUser db.users r.patient_id).isSome ∧
        (lookupPrescription db.prescriptions r.prescription_id).isSome) :
    (∀ r ∈ db.medication_reminders,
      (((dueReminderRows db today).map (·.reminder_id)).contains r.id = true ↔
        (r.is_active = true ∧ r.start_date ≤ today ∧ today ≤ r.end_date ∧
          (r.last_sent_date = none ∨ ∃ d, r.last_sent_date = some d ∧ d < today)))) ∧
    (∀ pid : Nat,
      groupedMedicines (groupRows (dueReminderRows db today)) pid =
        patientRowMedicines (dueReminderRows db today) pid) ∧
    (∀ pid : Nat,
      ((dueReminderRows db today).filter (fun row => row.patient_id == pid)).Pairwise
        (fun a b => a.created_at ≤ b.created_at)) ∧
    (∀ pid : Nat, patientRowMedicines (dueReminderRows db today) pid = [] →
      ∀ e ∈ (send_daily_medication_reminders db today sendOk).1, e.patient_id ≠ pid) := by
  refine ⟨?_, fun pid => groupRows_meds _ pid, ?_, ?_⟩
  · intro r hr
    rw [← reminderDue_iff]
    constructor
    · intro hc
      obtain ⟨row, hrow, hid⟩ := List.mem_map.mp (List.elem_iff.mp hc)
      exact due_of_id_mem hnd hr hrow hid
    · intro hdue
      exact id_mem_rowIds hr hdue (joinReminder_isSome (hFK r hr).1 (hFK r hr).2)
  · intro pid
    have hs : (dueReminderRows db today).Pairwise RowLE := by
      unfold dueReminderRows
      exact List.sorted_insertionSort RowLE _
    have hfilter := List.Pairwise.filter (fun row => row.patient_id == pid) hs
    refine List.Pairwise.imp_of_mem ?_ hfilter
    intro a b ha hb hab
    have ha' : a.patient_id = pid := by simpa using (List.mem_filter.mp ha).2
    have hb' : b.patient_id = pid := by simpa using (List.mem_filter.mp hb).2
    rcases hab with h | ⟨_, h⟩
    · omega
    · exact h
  · intro pid hempty e he
    intro hpe
    unfold send_daily_medication_reminders at he
    by_cases hrows : (dueReminderRows db today).isEmpty = true
    · rw [if_pos hrows] at he
      cases he
    · rw [if_neg hrows] at he
      simp only [List.mem_filterMap] at he
      obtain ⟨entry, hentry, hsome⟩ := he
      by_cases hm : entry.2.medicines.isEmpty = true
      · rw [if_pos hm] at hsome
        cases hsome
      · rw [if_neg hm] at hsome
        have hpid : entry.1 = pid := by
          have h1 := hsome
          rw [Option.some_inj] at h1
          rw [← h1] at hpe
          exact hpe
        have hkeys : ((groupRows (dueReminderRows db today)).map Prod.fst).Nodup :=
          groupRows_keys_nodup _ [] (by simp)
        have hfind := find?_key_of_mem hkeys hentry
        have hg : groupedMedicines (groupRows (dueReminderRows db today)) pid =
            entry.2.medicines := by
          unfold groupedMedicines
          rw [← hpid, hfind]
        rw [groupRows_meds, hempty] at hg
        rw [← hg] at hm
        exact hm rfl

/-- Witness for C3: on day 10 patient 1's two open prescriptions merge to
`[medX, medY]` in creation order, and patient 2 — whose only qualifying
window has an empty medicine list — receives no email. -/
theorem claim3_aggregation_witness :
    patientRowMedicines (dueReminderRows c3db 10) 1 = [medX, medY] ∧
    groupedMedicines (groupRows (dueReminderRows c3db 10)) 1 = [medX, medY] ∧
    (∀ e ∈ (send_daily_medication_reminders c3db 10 (fun _ => true)).1, e.patient_id ≠ 2) := by
  have h := claim3_aggregation c3db 10 (fun _ => true) (by decide) (by decide)
  exact ⟨by decide, (h.2.1 1).trans (by decide), h.2.2.2 2 (by decide)⟩

/-! ## Lemmas about the rating path -/

theorem create_rating_ratings (db : RatingDB) (doctor_id patient_id appointment_id rating : Nat)
    (review_text : Option String) (rating_id : Nat) :
    (create_rating db doctor_id patient_id appointment_id rating review_text
        rating_id).doctor_ratings =
      db.doctor_ratings ++
        [{ id := rating_id, doctor_id := doctor_id, patient_id := patient_id,
           appointment_id := appointment_id, rating := rating, review_text := review_text }] := rfl

theorem avgMatch_eq_specAverage (rs : List DoctorRating) :
    (match (if rs.isEmpty then (none : Option ℚ)
        else some ((rs.map (fun r => (r.rating : ℚ))).sum / (rs.length : ℚ))) with
      | none => (0 : ℚ)
      | some a => if a = 0 then 0 else a) = specAverage rs := by
  by_cases he : rs.isEmpty = true
  · rw [if_pos he]
    unfold specAverage
    rw [if_pos he]
  · rw [if_neg he]
    unfold specAverage
    rw [if_neg he]
    show (if (rs.map (fun r => (r.rating : ℚ))).sum / (rs.length : ℚ) = 0 then (0 : ℚ)
        else (rs.map (fun r => (r.rating : ℚ))).sum / (rs.length : ℚ)) =
      (rs.map (fun r => (r.rating : ℚ))).sum / (rs.length : ℚ)
    by_cases hq : (rs.map (fun r => (r.rating : ℚ))).sum / (rs.length : ℚ) = 0
    · rw [if_pos hq, hq]
    · rw [if_neg hq]

theorem length_filter_singleton {α : Type} (p : α → Bool) (x : α) :
    (List.filter p [x]).length ≤ 1 := by
  rw [List.filter_singleton]
  cases hp : p x <;> simp [hp]

theorem update_aggregate_correct (db : RatingDB) (did : Nat) :
    ∀ d ∈ (update_doctor_average_rating db did).doctor_details, d.user_id = did →
      d.average_rating = specAverage (ratingsOfDoctor db did) ∧
      d.total_ratings = (ratingsOfDoctor db did).length := by
  intro d hd hdid
  unfold update_doctor_average_rating at hd
  simp only [List.mem_map] at hd
  obtain ⟨d0, hd0, hfd⟩ := hd
  by_cases hk : (d0.user_id == did) = true
  · rw [if_pos hk] at hfd
    subst hfd
    exact ⟨avgMatch_eq_specAverage (ratingsOfDoctor db did), rfl⟩
  · rw [if_neg hk] at hfd
    subst hfd
    exact absurd hdid (by simpa using hk)

/-- C7: at most one rating row can exist per (patient, appointment) pair: a
second rating attempt for a pair that already has a row is rejected with no
change to the database, and the operation preserves at-most-one-per-pair
across all pairs. -/
theorem claim7_rating_unique (db : RatingDB) (pid aid : Nat) (v : Int) (rev : Option String)
    (rid : Nat) :
    (hasRatingFor db pid aid →
      (rate_doctor db pid aid v rev rid).1 ≠ .success ∧
        (rate_doctor db pid aid v rev rid).2 = db) ∧
    (∀ p' a' : Nat, (ratingsForPair db p' a').length ≤ 1 →
      (ratingsForPair (rate_doctor db pid aid v rev rid).2 p' a').length ≤ 1) := by
  constructor
  · intro hex
    have hsome : (check_existing_rating db pid aid).isSome := by
      obtain ⟨r, hr, h1, h2⟩ := hex
      unfold check_existing_rating
      rw [List.find?_isSome]
      exact ⟨r, hr, by simp [h1, h2]⟩
    unfold rate_doctor
    by_cases hv : (v < 1 || v > 5) = true
    · rw [if_pos hv]
      exact ⟨by simp, rfl⟩
    · rw [if_neg hv]
      obtain ⟨r0, hr0⟩ := Option.isSome_iff_exists.mp hsome
      rw [hr0]
      exact ⟨by simp, rfl⟩
  · intro p' a' hlen
    unfold rate_doctor
    by_cases hv : (v < 1 || v > 5) = true
    · rw [if_pos hv]
      exact hlen
    · rw [if_neg hv]
      cases hchk : check_existing_rating db pid aid with
      | some r0 => exact hlen
      | none =>
          cases hfind : db.appointments.find? (fun a => a.id == aid && a.patient_id == pid) with
          | none => exact hlen
          | some appt =>
              show (ratingsForPair
                  (if appt.status != "COMPLETED" && appt.status != "REJECTED" then
                    (RateOutcome.badStatus, db)
                  else (RateOutcome.success,
                    create_rating db appt.doctor_id pid aid v.toNat rev rid)).2 p' a').length ≤ 1
              by_cases hst : (appt.status != "COMPLETED" && appt.status != "REJECTED") = true
              · rw [if_pos hst]
                exact hlen
              · rw [if_neg hst]
                show (ratingsForPair (create_rating db appt.doctor_id pid aid v.toNat rev rid)
                    p' a').length ≤ 1
                unfold ratingsForPair
                rw [create_rating_ratings, List.filter_append, List.length_append]
                by_cases hpa : pid = p' ∧ aid = a'
                · have hnone : db.doctor_ratings.filter
                      (fun r => r.patient_id == p' && r.appointment_id == a') = [] := by
                    rw [List.filter_eq_nil_iff]
                    intro x hx
                    unfold check_existing_rating at hchk
                    have := List.find?_eq_none.mp hchk x hx
                    rw [← hpa.1, ← hpa.2]
                    exact this
                  rw [hnone]
                  simpa using length_filter_singleton
                    (fun r : DoctorRating => r.patient_id == p' && r.appointment_id == a') _
                · have hb : ((pid == p') && (aid == a')) = false := by
                    by_cases h1 : pid = p'
                    · by_cases h2 : aid = a'
                      · exact absurd ⟨h1, h2⟩ hpa
                      · simp [h2]
                    · simp [h1]
                  have hsing : List.filter
                      (fun r : DoctorRating => r.patient_id == p' && r.appointment_id == a')
                      [⟨rid, appt.doctor_id, pid, aid, v.toNat, rev⟩] = [] := by
                    have hb' : ((⟨rid, appt.doctor_id, pid, aid, v.toNat, rev⟩ :
                          DoctorRating).patient_id == p' &&
                        (⟨rid, appt.doctor_id, pid, aid, v.toNat, rev⟩ :
                          DoctorRating).appointment_id == a') = false := hb
                    rw [List.filter_singleton, hb']
                    rfl
                  rw [hsing]
                  simpa using hlen

/-- Witness for C7: patient 1 already rated appointment 31 in `c7db`; a
second attempt is rejected and leaves the database unchanged, and the
at-most-one invariant carries over. -/
theorem claim7_rating_unique_witness :
    (rate_doctor c7db 1 31 4 none 999).1 ≠ RateOutcome.success ∧
    (rate_doctor c7db 1 31 4 none 999).2 = c7db ∧
    (ratingsForPair (rate_doctor c7db 1 31 4 none 999).2 1 31).length ≤ 1 := by
  have h := claim7_rating_unique c7db 1 31 4 none 999
  have hex : hasRatingFor c7db 1 31 := ⟨c7rating, by decide, by decide, by decide⟩
  exact ⟨(h.1 hex).1, (h.1 hex).2, h.2 1 31 (by decide)⟩

/-- C8: after every successful rating insert, the rated doctor's
`doctor_details` row holds exactly `AVG(rating)` and `COUNT(*)` over that
doctor's rating rows, and a recompute that finds zero rating rows writes
average `0` and count `0` instead of failing. -/
theorem claim8_aggregate (db : RatingDB) (pid aid : Nat) (v : Int) (rev : Option String)
    (rid : Nat) :
    ((rate_doctor db pid aid v rev rid).1 = .success →
      ∃ nr : DoctorRating,
        (rate_doctor db pid aid v rev rid).2.doctor_ratings = db.doctor_ratings ++ [nr] ∧
        nr.patient_id = pid ∧ nr.appointment_id = aid ∧
        ∀ d ∈ (rate_doctor db pid aid v rev rid).2.doctor_details, d.user_id = nr.doctor_id →
          d.average_rating =
            specAverage (ratingsOfDoctor (rate_doctor db pid aid v rev rid).2 nr.doctor_id) ∧
          d.total_ratings =
            (ratingsOfDoctor (rate_doctor db pid aid v rev rid).2 nr.doctor_id).length) ∧
    (∀ (db2 : RatingDB) (did : Nat), ratingsOfDoctor db2 did = [] →
      ∀ d ∈ (update_doctor_average_rating db2 did).doctor_details, d.user_id = did →
        d.average_rating = 0 ∧ d.total_ratings = 0) := by
  constructor
  · intro hres
    unfold rate_doctor at hres ⊢
    by_cases hv : (v < 1 || v > 5) = true
    · rw [if_pos hv] at hres
      exact absurd hres (by simp)
    · rw [if_neg hv] at hres ⊢
      cases hchk : check_existing_rating db pid aid with
      | some r0 =>
          simp only [hchk] at hres
          exact absurd hres (by simp)
      | none =>
          simp only [hchk] at hres ⊢
          cases hfind : db.appointments.find? (fun a => a.id == aid && a.patient_id == pid) with
          | none =>
              simp only [hfind] at hres
              exact absurd hres (by simp)
          | some appt =>
              simp only [hfind] at hres ⊢
              by_cases hst : (appt.status != "COMPLETED" && appt.status != "REJECTED") = true
              · rw [if_pos hst] at hres
                exact absurd hres (by simp)
              · rw [if_neg hst]
                refine ⟨⟨rid, appt.doctor_id, pid, aid, v.toNat, rev⟩, rfl, rfl, rfl, ?_⟩
                intro d hd hdid
                have hd' : d ∈ (update_doctor_average_rating { db with doctor_ratings := db.doctor_ratings ++ [⟨rid, appt.doctor_id, pid, aid, v.toNat, rev⟩] } appt.doctor_id).doctor_details := hd
                exact update_aggregate_correct { db with doctor_ratings := db.doctor_ratings ++ [⟨rid, appt.doctor_id, pid, aid, v.toNat, rev⟩] } appt.doctor_id d hd' hdid
  · intro db2 did hzero d hd hdid
    have h := update_aggregate_correct db2 did d hd hdid
    rw [hzero] at h
    exact ⟨h.1.trans (by unfold specAverage; rfl), h.2⟩

/-- Witness for C8: inserting the ratings `{5, 3, 4}` through the route
leaves doctor 9 with average `4` and count `3`, and a recompute over an
empty rating table writes `0` and `0`. -/
theorem claim8_aggregate_witness :
    (∀ d ∈ c8db3.doctor_details, d.user_id = 9 → d.average_rating = 4 ∧ d.total_ratings = 3) ∧
    (∀ d ∈ (update_doctor_average_rating ⟨[], [], [drDetails]⟩ 9).doctor_details,
      d.user_id = 9 → d.average_rating = 0 ∧ d.total_ratings = 0) := by
  constructor
  · have h := (claim8_aggregate c8db2 1 53 4 none 203).1 rfl
    obtain ⟨nr, happ, hp, ha, hagg⟩ := h
    have hratings : c8db3.doctor_ratings = c8db2.doctor_ratings ++ [nr] := happ
    have hconc : [c8r1, c8r2] ++ [nr] = [c8r1, c8r2, c8r3] := by
      have h3 : c8db2.doctor_ratings = [c8r1, c8r2] := rfl
      rw [← h3, ← hratings]
      rfl
    have hnr : nr = c8r3 := by simpa using hconc
    intro d hd hdid
    have hdid9 : d.user_id = nr.doctor_id := by
      rw [hnr]
      exact hdid
    have hres := hagg d hd hdid9
    refine ⟨hres.1.trans ?_, hres.2.trans ?_⟩
    · rw [hnr]
      have hlist : ratingsOfDoctor (rate_doctor c8db2 1 53 4 none 203).2 c8r3.doctor_id =
          [c8r1, c8r2, c8r3] := rfl
      rw [hlist]
      unfold specAverage
      norm_num [c8r1, c8r2, c8r3]
    · rw [hnr]
      rfl
  · exact (claim8_aggregate c8db2 0 0 0 none 0).2 _ 9 rfl

/-- C9 (amended): fetching notifications purges exactly the requesting
user's own read notifications older than 7 days — unread ones and other
users' rows are never removed — and returns at most 50 remaining
notifications of the user, newest first; a purged notification is absent
from the result, and a remaining notification of the user is present
provided the fetch is not unread-only and at most 50 of the user's
notifications remain after the purge. -/
theorem claim9_retention (notifs : List Notification) (uid : Nat) (unread_only : Bool)
    (now : Nat) :
    (∀ n ∈ notifs, n.is_read = false → n ∈ (get_user_notifications notifs uid unread_only now).2) ∧
    (∀ n ∈ notifs, n.user_id ≠ uid → n ∈ (get_user_notifications notifs uid unread_only now).2) ∧
    (∀ n : Notification, n.user_id = uid → n.is_read = true → n.created_at + sevenDays < now →
      n ∉ (get_user_notifications notifs uid unread_only now).2 ∧
        n ∉ (get_user_notifications notifs uid unread_only now).1) ∧
    ((get_user_notifications notifs uid unread_only now).1.length ≤ 50) ∧
    ((get_user_notifications notifs uid unread_only now).1.Pairwise
      (fun a b => b.created_at ≤ a.created_at)) ∧
    (unread_only = false → ∀ n ∈ notifs, n.user_id = uid →
      ¬(n.is_read = true ∧ n.created_at + sevenDays < now) →
      (((get_user_notifications notifs uid unread_only now).2.filter
          (fun m => m.user_id == uid)).length ≤ 50) →
      n ∈ (get_user_notifications notifs uid unread_only now).1) := by
  unfold get_user_notifications
  refine ⟨?_, ?_, ?_, ?_, ?_, ?_⟩
  · intro n hn hr
    apply List.mem_filter_of_mem hn
    simp [notifPurged, hr]
  · intro n hn hu
    apply List.mem_filter_of_mem hn
    simp [notifPurged, hu]
  · intro n h1 h2 h3
    have hpurged : notifPurged uid now n = true := by
      simp [notifPurged, h1, h2, h3]
    constructor
    · intro hmem
      have := (List.mem_filter.mp hmem).2
      rw [hpurged] at this
      cases this
    · intro hmem
      have hsorted := (List.take_sublist 50 _).subset hmem
      rw [List.mem_insertionSort] at hsorted
      have hrem : n ∈ notifs.filter (fun n => !notifPurged uid now n) := by
        by_cases hu : unread_only = true
        · rw [if_pos hu] at hsorted
          exact (List.mem_filter.mp hsorted).1
        · rw [if_neg hu] at hsorted
          exact (List.mem_filter.mp hsorted).1
      have := (List.mem_filter.mp hrem).2
      rw [hpurged] at this
      cases this
  · exact List.length_take_le _ _
  · have hs := List.sorted_insertionSort NotifGE
      (if unread_only then
        (notifs.filter (fun n => !notifPurged uid now n)).filter
          (fun n => n.user_id == uid && !n.is_read)
       else (notifs.filter (fun n => !notifPurged uid now n)).filter (fun n => n.user_id == uid))
    exact List.Pairwise.sublist (List.take_sublist 50 _) hs
  · intro huo n hn hu hnp hlen
    rw [huo]
    simp only [Bool.false_eq_true, if_false]
    have hpurged : notifPurged uid now n = false := by
      by_cases hr : n.is_read = true
      · have hold : ¬(n.created_at + sevenDays < now) := fun hlt => hnp ⟨hr, hlt⟩
        simp [notifPurged, hr, hold]
      · simp only [Bool.not_eq_true] at hr
        simp [notifPurged, hr]
    have hrem : n ∈ notifs.filter (fun n => !notifPurged uid now n) :=
      List.mem_filter_of_mem hn (by rw [hpurged]; rfl)
    have hmine : n ∈ (notifs.filter (fun n => !notifPurged uid now n)).filter
        (fun m => m.user_id == uid) :=
      List.mem_filter_of_mem hrem (by simp [hu])
    rw [huo] at hlen
    simp only [Bool.false_eq_true, if_false] at hlen
    have hlen' : (((notifs.filter (fun n => !notifPurged uid now n)).filter
        (fun m => m.user_id == uid)).insertionSort NotifGE).length ≤ 50 := by
      rw [(List.perm_insertionSort NotifGE _).length_eq]
      exact hlen
    rw [List.take_of_length_le hlen']
    rw [List.mem_insertionSort]
    exact hmine

/-- Counterexample for C9: a read notification 6 days old is not purged, yet
it is absent from the fetch result — 50 newer notifications fill the
50-element page first, so presence of the 6-day-old row is not guaranteed. -/
theorem claim9_counterexample :
    sixDayOldRead ∈ c9notifs ∧
    sixDayOldRead.is_read = true ∧
    nowTs ≤ sixDayOldRead.created_at + sevenDays ∧
    sixDayOldRead ∈ (get_user_notifications c9notifs 7 false nowTs).2 ∧
    sixDayOldRead ∉ (get_user_notifications c9notifs 7 false nowTs).1 := by
  decide

/-- Witness for C9: in the small scenario, the read 8-day-old notification
is purged and absent, the read 6-day-old one is returned, and the unread
9-day-old one and the other user's row survive the purge. -/
theorem claim9_retention_witness :
    mkNotif 1 7 (nowTs - 8 * 86400) true ∉ (get_user_notifications c9small 7 false nowTs).1 ∧
    mkNotif 1 7 (nowTs - 8 * 86400) true ∉ (get_user_notifications c9small 7 false nowTs).2 ∧
    mkNotif 2 7 (nowTs - 6 * 86400) true ∈ (get_user_notifications c9small 7 false nowTs).1 ∧
    mkNotif 3 7 (nowTs - 9 * 86400) false ∈ (get_user_notifications c9small 7 false nowTs).2 ∧
    mkNotif 4 8 (nowTs - 9 * 86400) true ∈ (get_user_notifications c9small 7 false nowTs).2 := by
  have h := claim9_retention c9small 7 false nowTs
  refine ⟨?_, ?_, ?_, ?_, ?_⟩
  · exact (h.2.2.1 (mkNotif 1 7 (nowTs - 8 * 86400) true) (by decide) (by decide) (by decide)).2
  · exact (h.2.2.1 (mkNotif 1 7 (nowTs - 8 * 86400) true) (by decide) (by decide) (by decide)).1
  · exact h.2.2.2.2.2 rfl (mkNotif 2 7 (nowTs - 6 * 86400) true) (by decide) (by decide)
      (by decide) (by decide)
  · exact h.1 (mkNotif 3 7 (nowTs - 9 * 86400) false) (by decide) (by decide)
  · exact h.2.1 (mkNotif 4 8 (nowTs - 9 * 86400) true) (by decide) (by decide)

end HMS
